import Mathlib

/-!
Verification of the cem-grpc4bmi adapter (src/server/cem-grpc4bmi-server.cxx).

The first-party code is a single `main` that allocates a `Bmi` handle,
registers the callbacks of the CEM model into it via the external registrar
`register_bmi_cem`, queries and prints the component name, hands the handle
to the external server loop `run_bmi_server`, frees the handle and returns 0.
We embed `main` as a deterministic trace-producing function over an
environment recording the behaviour of the three external effects the
adapter depends on: the allocator, the component-name callback, and the
server loop.
-/

namespace CemGrpc4bmi

/-- Modelled from the spec: the fixed maximum component-name buffer size
`BMI_MAX_COMPONENT_NAME` from the external BMI header (not part of this
repository); the standard BMI C header fixes it at 2048 bytes. -/
def BMI_MAX_COMPONENT_NAME : Nat := 2048

/-- Modelled from the spec: the concrete CEM implementations of the
operations of the uniform model interface, which the external registrar binds
into the handle.  `cem_init` stands for the implementation of the slot the C
header spells with the word for setting up the model. -/
inductive CemImpl where
  | cem_init
  | cem_update
  | cem_finalize
  | cem_get_component_name
  | cem_get_time_step
  | cem_get_value
  | cem_set_value
  deriving DecidableEq, Repr

/-- Modelled from the spec: the Model Handle, a table of callback slots, one
per operation of the uniform model interface listed by the spec; each slot is
either unpopulated (`none`, a null function pointer) or bound to a
model-specific implementation.  `bmi_init` models the slot the C header spells
with the word for setting up the model. -/
structure Bmi where
  bmi_init : Option CemImpl
  update : Option CemImpl
  finalize : Option CemImpl
  get_component_name : Option CemImpl
  get_time_step : Option CemImpl
  get_value : Option CemImpl
  set_value : Option CemImpl
  deriving DecidableEq, Repr

/-- The freshly allocated handle: all callback slots undefined/unbound
(the spec: a handle record with undefined/zeroed callback slots). -/
def initBmi : Bmi :=
  { bmi_init := none
    update := none
    finalize := none
    get_component_name := none
    get_time_step := none
    get_value := none
    set_value := none }

/-- Modelled from the spec: the external registrar `register_bmi_cem` from the
CEM library (declared in cem/bmi_cem.h, not part of this repository): it
populates every callback slot of the uniform model interface with the CEM
model-specific implementation of that operation, allocating nothing itself. -/
def register_bmi_cem (b : Bmi) : Bmi :=
  { b with
    bmi_init := some CemImpl.cem_init
    update := some CemImpl.cem_update
    finalize := some CemImpl.cem_finalize
    get_component_name := some CemImpl.cem_get_component_name
    get_time_step := some CemImpl.cem_get_time_step
    get_value := some CemImpl.cem_get_value
    set_value := some CemImpl.cem_set_value }

/-- Every callback slot of the handle is bound (non-null). -/
def allSlotsBound (b : Bmi) : Bool :=
  b.bmi_init.isSome && b.update.isSome && b.finalize.isSome &&
  b.get_component_name.isSome && b.get_time_step.isSome &&
  b.get_value.isSome && b.set_value.isSome

/-- Modelled from the spec: the declared component-name constant of the CEM model
(owned by the external CEM library; the spec records only that it is a fixed
non-empty string within the maximum buffer size). -/
def CEM_COMPONENT_NAME : String := "Coastline Evolution Model (CEM)"

/-- Modelled from the spec: the string a bound callback writes into the
caller-supplied buffer when invoked through the get_component_name slot; only
the CEM implementation of that operation writes the declared name constant. -/
def writesComponentName : CemImpl → Option String
  | CemImpl.cem_get_component_name => some CEM_COMPONENT_NAME
  | _ => none

/-- Writing a NUL-terminated C string `s` into a caller buffer of `cap` bytes:
the write is within bounds (and the buffer afterwards reads back as `s`) iff
the string plus its one-byte terminator fits; otherwise it overruns. -/
def writeCString (s : String) (cap : Nat) : Option String :=
  if s.length + 1 ≤ cap then some s else none

/-- Behaviour of the external server loop `run_bmi_server` as observed at its
call site in `main`: it returns control to `main` (its return type carries no
status), or an unhandled error escapes it as a C++ exception (which `main`
does not catch), or it blocks until the process is externally terminated. -/
inductive ServerBehavior where
  | returns
  | raises
  | blocks
  deriving DecidableEq, Repr

/-- How the process ends in the embedded execution. -/
inductive Outcome where
  /-- `main` returned this code. -/
  | exited (code : Int)
  /-- Undefined behaviour: the adapter read through a null model handle. -/
  | nullDereference
  /-- Undefined behaviour: the callback overran the stack name buffer. -/
  | bufferOverflow
  /-- An unhandled C++ exception escaped `main`: abnormal termination. -/
  | terminatedByException
  /-- The server loop never returned; the process runs until killed. -/
  | neverReturns
  deriving DecidableEq, Repr

/-- Whether the outcome reports a non-zero status to the parent process:
a normal exit with non-zero code, or any abnormal termination (an unhandled
exception or a fault never reports status 0). -/
def Outcome.nonzeroStatus : Outcome → Bool
  | Outcome.exited c => c != 0
  | Outcome.nullDereference => true
  | Outcome.bufferOverflow => true
  | Outcome.terminatedByException => true
  | Outcome.neverReturns => false

/-- Observable events of one execution of `main`, in program order. -/
inductive Event where
  /-- A line the adapter itself prints on standard output. -/
  | output (s : String)
  /-- `malloc(sizeof(Bmi))` returned address `addr` (0 models NULL). -/
  | mallocBmi (addr : Nat)
  /-- `register_bmi_cem(model)` was invoked on the handle at `addr`,
  leaving the callback table `table` in it. -/
  | registerBmiCem (addr : Nat) (table : Bmi)
  /-- The get_component_name slot was invoked through the handle at `addr`. -/
  | getComponentName (addr : Nat)
  /-- `run_bmi_server(model, argc, argv)` was entered with the handle at
  `addr` holding `table`, and the forwarded argument count and vector. -/
  | runBmiServerCall (addr : Nat) (table : Bmi) (argc : Nat) (argv : List String)
  /-- `free(model)` was invoked on the handle at `addr`. -/
  | freeBmi (addr : Nat)
  deriving DecidableEq, Repr

/-- The environment: the behaviour of the external effects `main` calls.
`mallocResult` is the address the allocator returns (0 models NULL);
`writtenName` is the string the external get_component_name implementation
writes into the buffer supplied by the caller (for the CEM model, `CEM_COMPONENT_NAME`);
`serverBehavior` is how the external server loop behaves. -/
structure Env where
  mallocResult : Nat
  writtenName : String
  serverBehavior : ServerBehavior
  deriving DecidableEq, Repr

/-- Shallow embedding of `main` from src/server/cem-grpc4bmi-server.cxx:
print the banner; allocate the handle; call `register_bmi_cem` on it with no
null check; read the get_component_name slot through the handle (undefined if
the handle is null) and invoke it on a stack buffer of
`BMI_MAX_COMPONENT_NAME` bytes with no capacity argument; print the buffer;
call `run_bmi_server(model, argc, argv)`; when it returns, free the handle
and return 0. -/
def mainRun (env : Env) (argv : List String) : List Event × Outcome :=
  let h := env.mallocResult
  let table := register_bmi_cem initBmi
  let tr := [Event.output "CEM grpc4bmi server\n", Event.mallocBmi h,
             Event.registerBmiCem h table]
  if h = 0 then
    (tr, Outcome.nullDereference)
  else
    match writeCString env.writtenName BMI_MAX_COMPONENT_NAME with
    | none => (tr ++ [Event.getComponentName h], Outcome.bufferOverflow)
    | some name =>
      let tr := tr ++ [Event.getComponentName h, Event.output (name ++ "\n"),
                       Event.runBmiServerCall h table argv.length argv]
      match env.serverBehavior with
      | ServerBehavior.returns => (tr ++ [Event.freeBmi h], Outcome.exited 0)
      | ServerBehavior.raises => (tr, Outcome.terminatedByException)
      | ServerBehavior.blocks => (tr, Outcome.neverReturns)

/-- The lines the adapter prints before handing control to the server loop
(everything it prints of its own accord). -/
def outputsBeforeServer : List Event → List String
  | [] => []
  | Event.runBmiServerCall _ _ _ _ :: _ => []
  | Event.output s :: rest => s :: outputsBeforeServer rest
  | _ :: rest => outputsBeforeServer rest

/-- An environment where allocation succeeds, the callback writes the CEM
name constant, and the server loop returns cleanly. -/
def envOk : Env :=
  { mallocResult := 1
    writtenName := CEM_COMPONENT_NAME
    serverBehavior := ServerBehavior.returns }

/-- An environment where `malloc` returns NULL. -/
def envNull : Env :=
  { mallocResult := 0
    writtenName := CEM_COMPONENT_NAME
    serverBehavior := ServerBehavior.returns }

/-- An environment where an unhandled error escapes the server loop. -/
def envRaises : Env :=
  { mallocResult := 1
    writtenName := CEM_COMPONENT_NAME
    serverBehavior := ServerBehavior.raises }

/-- A component-name string that, with its terminator, does not fit in the
`BMI_MAX_COMPONENT_NAME`-byte stack buffer. -/
def longName : String := String.mk (List.replicate BMI_MAX_COMPONENT_NAME 'a')

/-- The long name fills the buffer exactly, so it and its terminator overrun. -/
theorem longName_length : longName.length = BMI_MAX_COMPONENT_NAME :=
  List.length_replicate _ _

/-- C1: every callback slot of the uniform model interface in the handle that
`main` passes to `run_bmi_server` is bound to a non-null implementation,
`register_bmi_cem` having run on the handle before that call. -/
theorem registration_completeness (env : Env) (argv : List String)
    (a : Nat) (t : Bmi) (n : Nat) (bs : List String)
    (hmem : Event.runBmiServerCall a t n bs ∈ (mainRun env argv).1) :
    allSlotsBound t = true := by
  obtain ⟨m, w, sb⟩ := env
  by_cases hm : m = 0 <;> by_cases hn : w.length + 1 ≤ BMI_MAX_COMPONENT_NAME <;>
    cases sb <;> simp [mainRun, writeCString, hm, hn] at hmem
  all_goals obtain ⟨-, ht, -, -⟩ := hmem
  all_goals subst ht
  all_goals decide

/-- C1 witness at a concrete environment and argument list. -/
theorem registration_completeness_witness :
    allSlotsBound (register_bmi_cem initBmi) = true :=
  registration_completeness envOk ["cem-grpc4bmi-server"] 1
    (register_bmi_cem initBmi) 1 ["cem-grpc4bmi-server"] (by decide)

/-- C2: querying the component name through the get_component_name slot
immediately after registration yields the declared name constant, which is
non-empty and, terminator included, fits in `BMI_MAX_COMPONENT_NAME` bytes. -/
theorem name_round_trip :
    ((register_bmi_cem initBmi).get_component_name.bind writesComponentName
        = some CEM_COMPONENT_NAME)
    ∧ CEM_COMPONENT_NAME ≠ ""
    ∧ CEM_COMPONENT_NAME.length + 1 ≤ BMI_MAX_COMPONENT_NAME := by
  decide

/-- C3: `free(model)` runs only in executions where `run_bmi_server` has
returned, only after the `run_bmi_server` call, and on the very handle that
was passed to `run_bmi_server`. -/
theorem free_only_after_server (env : Env) (argv : List String) (a : Nat)
    (hmem : Event.freeBmi a ∈ (mainRun env argv).1) :
    a = env.mallocResult
    ∧ env.serverBehavior = ServerBehavior.returns
    ∧ ∃ pre, (mainRun env argv).1 =
        pre ++ [Event.runBmiServerCall a (register_bmi_cem initBmi)
                  argv.length argv,
                Event.freeBmi a] := by
  obtain ⟨m, w, sb⟩ := env
  by_cases hm : m = 0 <;> by_cases hn : w.length + 1 ≤ BMI_MAX_COMPONENT_NAME <;>
    cases sb <;> simp [mainRun, writeCString, hm, hn] at hmem
  subst hmem
  exact ⟨rfl, rfl,
    ⟨[Event.output "CEM grpc4bmi server\n", Event.mallocBmi a,
      Event.registerBmiCem a (register_bmi_cem initBmi),
      Event.getComponentName a, Event.output (w ++ "\n")],
     by simp [mainRun, writeCString, hm, hn]⟩⟩

/-- C3 witness at a concrete environment and argument list. -/
theorem free_only_after_server_witness :
    1 = envOk.mallocResult
    ∧ envOk.serverBehavior = ServerBehavior.returns
    ∧ ∃ pre, (mainRun envOk ["cem-grpc4bmi-server"]).1 =
        pre ++ [Event.runBmiServerCall 1 (register_bmi_cem initBmi)
                  (["cem-grpc4bmi-server"] : List String).length
                  ["cem-grpc4bmi-server"],
                Event.freeBmi 1] :=
  free_only_after_server envOk ["cem-grpc4bmi-server"] 1 (by decide)

/-- C4 counterexample: in the execution where `malloc` returns NULL, `main`
still invokes `register_bmi_cem` on the null handle—so the claim that the
process aborts without registering callbacks is false—and the execution ends
in a null dereference (undefined behaviour), not a defined error exit. -/
theorem alloc_failure_counterexample :
    Event.registerBmiCem 0 (register_bmi_cem initBmi)
        ∈ (mainRun envNull ["cem-grpc4bmi-server"]).1
    ∧ (mainRun envNull ["cem-grpc4bmi-server"]).2 = Outcome.nullDereference := by
  decide

/-- C4 amended: when `malloc` returns NULL the adapter performs no check: it
still invokes `register_bmi_cem` on the null handle, then dereferences the
handle to query the component name, which is undefined behaviour (in practice
an abnormal, hence non-zero, termination); the server loop is never entered
and the process does not exit with code 0. -/
theorem alloc_failure_behavior (env : Env) (argv : List String)
    (h0 : env.mallocResult = 0) :
    Event.registerBmiCem 0 (register_bmi_cem initBmi) ∈ (mainRun env argv).1
    ∧ (mainRun env argv).2 = Outcome.nullDereference
    ∧ (mainRun env argv).2.nonzeroStatus = true
    ∧ ∀ a t n bs, Event.runBmiServerCall a t n bs ∉ (mainRun env argv).1 := by
  simp [mainRun, h0, Outcome.nonzeroStatus]

/-- C4 witness at a concrete environment and argument list. -/
theorem alloc_failure_behavior_witness :
    Event.registerBmiCem 0 (register_bmi_cem initBmi)
        ∈ (mainRun envNull ["cem-grpc4bmi-server"]).1
    ∧ (mainRun envNull ["cem-grpc4bmi-server"]).2 = Outcome.nullDereference
    ∧ (mainRun envNull ["cem-grpc4bmi-server"]).2.nonzeroStatus = true
    ∧ ∀ a t n bs, Event.runBmiServerCall a t n bs
        ∉ (mainRun envNull ["cem-grpc4bmi-server"]).1 :=
  alloc_failure_behavior envNull ["cem-grpc4bmi-server"] (by decide)

/-- C5: when the server loop returns after a clean shutdown the process exits
with code 0, and when an unhandled error escapes the server loop the process
terminates with a non-zero status (the exception passes through `main`, which
installs no handler). -/
theorem exit_code_reflects_server (env : Env) (argv : List String)
    (hm : env.mallocResult ≠ 0)
    (hn : env.writtenName.length + 1 ≤ BMI_MAX_COMPONENT_NAME) :
    (env.serverBehavior = ServerBehavior.returns →
        (mainRun env argv).2 = Outcome.exited 0)
    ∧ (env.serverBehavior = ServerBehavior.raises →
        (mainRun env argv).2.nonzeroStatus = true) := by
  constructor <;> intro hs <;>
    simp [mainRun, writeCString, hm, hn, hs, Outcome.nonzeroStatus]

/-- C5 witness at concrete environments and argument lists. -/
theorem exit_code_reflects_server_witness :
    (mainRun envOk ["cem-grpc4bmi-server"]).2 = Outcome.exited 0
    ∧ (mainRun envRaises ["cem-grpc4bmi-server"]).2.nonzeroStatus = true :=
  ⟨(exit_code_reflects_server envOk ["cem-grpc4bmi-server"]
      (by decide) (by decide)).1 rfl,
   (exit_code_reflects_server envRaises ["cem-grpc4bmi-server"]
      (by decide) (by decide)).2 rfl⟩

/-- C6: the adapter inspects no argument of its own—the outcome of `main` is
the same for every argument list—and the `run_bmi_server` call receives the
argument count and argument vector verbatim. -/
theorem args_forwarded_verbatim (env : Env) (argv : List String) :
    (∀ a t n bs, Event.runBmiServerCall a t n bs ∈ (mainRun env argv).1 →
        n = argv.length ∧ bs = argv)
    ∧ ∀ argv₂ : List String, (mainRun env argv).2 = (mainRun env argv₂).2 := by
  obtain ⟨m, w, sb⟩ := env
  constructor
  · intro a t n bs hmem
    by_cases hm : m = 0 <;> by_cases hn : w.length + 1 ≤ BMI_MAX_COMPONENT_NAME <;>
      cases sb <;> simp [mainRun, writeCString, hm, hn] at hmem
    all_goals exact ⟨hmem.2.2.1, hmem.2.2.2⟩
  · intro argv₂
    by_cases hm : m = 0 <;> by_cases hn : w.length + 1 ≤ BMI_MAX_COMPONENT_NAME <;>
      cases sb <;> simp [mainRun, writeCString, hm, hn]

/-- C6 witness at a concrete environment and argument list. -/
theorem args_forwarded_verbatim_witness :
    1 = (["cem-grpc4bmi-server"] : List String).length
    ∧ ["cem-grpc4bmi-server"] = (["cem-grpc4bmi-server"] : List String) :=
  (args_forwarded_verbatim envOk ["cem-grpc4bmi-server"]).1
    1 (register_bmi_cem initBmi) 1 ["cem-grpc4bmi-server"] (by decide)

/-- C7: in the execution where allocation succeeds, the name fits the buffer
and the server loop returns, `main` performs exactly these steps, once each
and in this order: banner, allocation, registration, name query, name print,
server call, release; and it exits with code 0. -/
theorem startup_sequence (env : Env) (argv : List String)
    (hm : env.mallocResult ≠ 0)
    (hn : env.writtenName.length + 1 ≤ BMI_MAX_COMPONENT_NAME)
    (hs : env.serverBehavior = ServerBehavior.returns) :
    mainRun env argv =
      ([Event.output "CEM grpc4bmi server\n",
        Event.mallocBmi env.mallocResult,
        Event.registerBmiCem env.mallocResult (register_bmi_cem initBmi),
        Event.getComponentName env.mallocResult,
        Event.output (env.writtenName ++ "\n"),
        Event.runBmiServerCall env.mallocResult (register_bmi_cem initBmi)
          argv.length argv,
        Event.freeBmi env.mallocResult], Outcome.exited 0) := by
  simp [mainRun, writeCString, hm, hn, hs]

/-- C7 witness at a concrete environment and argument list. -/
theorem startup_sequence_witness :
    mainRun envOk ["cem-grpc4bmi-server"] =
      ([Event.output "CEM grpc4bmi server\n",
        Event.mallocBmi 1,
        Event.registerBmiCem 1 (register_bmi_cem initBmi),
        Event.getComponentName 1,
        Event.output (CEM_COMPONENT_NAME ++ "\n"),
        Event.runBmiServerCall 1 (register_bmi_cem initBmi)
          (["cem-grpc4bmi-server"] : List String).length
          ["cem-grpc4bmi-server"],
        Event.freeBmi 1], Outcome.exited 0) :=
  startup_sequence envOk ["cem-grpc4bmi-server"]
    (by decide) (by decide) (by decide)

/-- C8 counterexample: on the failure path where an unhandled error escapes
the server loop, the adapter had printed two lines of its own before handing
control to the server loop—the fixed banner and the component-name line—not
exactly one. -/
theorem startup_output_counterexample :
    outputsBeforeServer (mainRun envRaises ["cem-grpc4bmi-server"]).1 =
      ["CEM grpc4bmi server\n", CEM_COMPONENT_NAME ++ "\n"]
    ∧ (outputsBeforeServer
        (mainRun envRaises ["cem-grpc4bmi-server"]).1).length ≠ 1 := by
  decide

/-- C8 amended: before handing control to the external server loop the
adapter prints exactly two lines of its own—the fixed banner
"CEM grpc4bmi server" and the registered component name—whatever the server
loop later does; on the allocation-failure path only the banner is printed. -/
theorem startup_output (env : Env) (argv : List String)
    (hn : env.writtenName.length + 1 ≤ BMI_MAX_COMPONENT_NAME) :
    outputsBeforeServer (mainRun env argv).1 =
      if env.mallocResult = 0 then ["CEM grpc4bmi server\n"]
      else ["CEM grpc4bmi server\n", env.writtenName ++ "\n"] := by
  by_cases hm : env.mallocResult = 0 <;>
    simp [mainRun, writeCString, hm, hn, outputsBeforeServer]
  cases env.serverBehavior <;> simp [outputsBeforeServer]

/-- C8 witness at a concrete environment and argument list. -/
theorem startup_output_witness :
    outputsBeforeServer (mainRun envOk ["cem-grpc4bmi-server"]).1 =
      if envOk.mallocResult = 0 then ["CEM grpc4bmi server\n"]
      else ["CEM grpc4bmi server\n", envOk.writtenName ++ "\n"] :=
  startup_output envOk ["cem-grpc4bmi-server"] (by decide)

/-- C9: `main` never tests the result of `malloc`: `register_bmi_cem` is
invoked on whatever address `malloc` returned, and in the execution where
allocation fails the subsequent read of the get_component_name slot through
the null handle is a null dereference (undefined behaviour). -/
theorem no_malloc_null_check (env : Env) (argv : List String) :
    Event.registerBmiCem env.mallocResult (register_bmi_cem initBmi)
        ∈ (mainRun env argv).1
    ∧ (env.mallocResult = 0 →
        (mainRun env argv).2 = Outcome.nullDereference) := by
  obtain ⟨m, w, sb⟩ := env
  constructor
  · by_cases hm : m = 0 <;> by_cases hn : w.length + 1 ≤ BMI_MAX_COMPONENT_NAME <;>
      cases sb <;> simp [mainRun, writeCString, hm, hn]
  · intro h0
    simp [mainRun, show m = 0 from h0]

/-- C9 witness at a concrete environment and argument list. -/
theorem no_malloc_null_check_witness :
    Event.registerBmiCem 0 (register_bmi_cem initBmi)
        ∈ (mainRun envNull ["cem-grpc4bmi-server"]).1
    ∧ (mainRun envNull ["cem-grpc4bmi-server"]).2 = Outcome.nullDereference :=
  ⟨(no_malloc_null_check envNull ["cem-grpc4bmi-server"]).1,
   (no_malloc_null_check envNull ["cem-grpc4bmi-server"]).2 rfl⟩

/-- C10: the name query writes through the external callback into a stack
buffer of exactly `BMI_MAX_COMPONENT_NAME` bytes with no capacity argument:
when the callback writes a NUL-terminated string that fits, the adapter
prints it and no overflow occurs; when the written string does not fit, the
execution is a buffer overflow (undefined behaviour). -/
theorem name_buffer_contract (env : Env) (argv : List String)
    (hm : env.mallocResult ≠ 0) :
    (env.writtenName.length + 1 ≤ BMI_MAX_COMPONENT_NAME →
        Event.output (env.writtenName ++ "\n") ∈ (mainRun env argv).1
        ∧ (mainRun env argv).2 ≠ Outcome.bufferOverflow)
    ∧ (¬ env.writtenName.length + 1 ≤ BMI_MAX_COMPONENT_NAME →
        (mainRun env argv).2 = Outcome.bufferOverflow) := by
  constructor
  · intro hn
    cases hs : env.serverBehavior <;>
      simp [mainRun, writeCString, hm, hn, hs]
  · intro hn
    simp [mainRun, writeCString, hm, hn]

/-- C10 witness at concrete environments and argument lists: the CEM name
fits and is printed; a name of `BMI_MAX_COMPONENT_NAME` characters plus its
terminator does not fit and overflows. -/
theorem name_buffer_contract_witness :
    (Event.output (CEM_COMPONENT_NAME ++ "\n")
        ∈ (mainRun envOk ["cem-grpc4bmi-server"]).1
      ∧ (mainRun envOk ["cem-grpc4bmi-server"]).2 ≠ Outcome.bufferOverflow)
    ∧ (mainRun ⟨1, longName, ServerBehavior.returns⟩
        ["cem-grpc4bmi-server"]).2 = Outcome.bufferOverflow :=
  ⟨(name_buffer_contract envOk ["cem-grpc4bmi-server"] (by decide)).1
      (by decide),
   (name_buffer_contract ⟨1, longName, ServerBehavior.returns⟩
      ["cem-grpc4bmi-server"] (by decide)).2
     (by rw [longName_length]; omega)⟩

end CemGrpc4bmi
